import Mathlib

/-
Verification of lib/connection.js (node-amqp): a shallow embedding of the
option handling, SASL response selection, handshake version check, body
chunking, channel id allocation, reconnection backoff, heartbeat supervision,
premature-end heuristic and the module-level shared tuning variables.
-/

namespace NodeAmqp

/-- JavaScript runtime values relevant to option handling, with their
truthiness. -/
inductive JsValue where
  | undef
  | jsNull
  | bool (b : Bool)
  | num (n : Int)
  | str (s : String)
deriving DecidableEq

/-- JavaScript truthiness of a value (undefined, null, false, 0 and the
empty string are falsy). -/
def truthy : JsValue → Bool
  | .undef => false
  | .jsNull => false
  | .bool b => b
  | .num n => n != 0
  | .str s => s != ""

/-- The noDelay computation in Connection.prototype._createSocket:
`var noDelay = this.options.noDelay || true;`. A JavaScript `||` returns
its left operand when truthy and its right operand otherwise; here the
right operand is the literal `true`. -/
def createSocketNoDelay (optionsNoDelay : JsValue) : JsValue :=
  if truthy optionsNoDelay then optionsNoDelay else .bool true

/-- An AMQP SASL response value as built by the client: either a field
table (a JavaScript object, kept as an ordered key/value list) or a
string. -/
inductive SaslValue where
  | table (entries : List (String × String))
  | str (s : String)
deriving DecidableEq

/-- Connection.prototype._saslResponse: selects the SASL response from
options.authMechanism, options.login, options.password and, for unknown
mechanisms, the caller-supplied options.response. -/
def saslResponse (authMechanism login password : String)
    (optionsResponse : SaslValue) : SaslValue :=
  if authMechanism = "AMQPLAIN" then
    .table [("LOGIN", login), ("PASSWORD", password)]
  else if authMechanism = "PLAIN" then
    .str ("\x00" ++ login ++ "\x00" ++ password)
  else if authMechanism = "EXTERNAL" then
    .str "\x00"
  else if authMechanism = "ANONYMOUS" then
    .str "\x00"
  else
    optionsResponse

/-- The visible action of the connectionStart case of
Connection.prototype._onMethod: either the socket is ended with a
"Bad server version" error, or connectionStartOk is sent. -/
inductive StartAction where
  | badVersion
  | startOk (mechanism : String) (response : SaslValue) (locale : String)
deriving DecidableEq

/-- The connectionStart case of _onMethod. The version check in the source
is `args.versionMajor !== 0 && args.versionMinor != 9`; when it holds the
socket is ended and a "Bad server version" error is emitted, otherwise
connectionStartOk is sent with the configured mechanism, the SASL response
and locale "en_US". -/
def onConnectionStart (versionMajor versionMinor : Nat)
    (authMechanism login password : String)
    (optionsResponse : SaslValue) : StartAction :=
  if versionMajor ≠ 0 ∧ versionMinor ≠ 9 then
    .badVersion
  else
    .startOk authMechanism
      (saslResponse authMechanism login password optionsResponse) "en_US"

/-- A publish body as seen by Connection.prototype._bodyToBuffer: a utf8
string, a byte Buffer, or any other value (whose JSON representation is
sent); the JSON serialization of the runtime is abstracted as a function
argument below. -/
inductive JsBody (α : Type) where
  | str (s : String)
  | buf (bytes : List UInt8)
  | other (v : α)

/-- Connection.prototype._bodyToBuffer: returns the property object to be
merged into the publish properties (null for strings and buffers, a
contentType of application/json otherwise) together with the byte buffer
that will be sent. -/
def bodyToBuffer {α : Type} (stringify : α → String) :
    JsBody α → Option (List (String × String)) × List UInt8
  | .str s => (none, s.toUTF8.toList)
  | .buf bytes => (none, bytes)
  | .other v =>
    (some [("contentType", "application/json")], (stringify v).toUTF8.toList)

/-- The condition under which the timer armed by
Connection.prototype._inboundHeartbeatTimerReset emits the heartbeat
timeout error when it fires:
`if(self.socket.readable || self.options.heartbeatForceReconnect)`. -/
def inboundHeartbeatFires (readable heartbeatForceReconnect : Bool) : Bool :=
  readable || heartbeatForceReconnect

/-- The grace period of the inbound heartbeat timer:
`var gracePeriod = 2 * this.options.heartbeat;` (seconds). -/
def heartbeatGracePeriod (heartbeat : Nat) : Nat := 2 * heartbeat

/-- The message of the error emitted on an inbound heartbeat timeout. -/
def heartbeatErrorMessage (gracePeriod : Nat) : String :=
  "no heartbeat or data in last " ++ toString gracePeriod ++ " seconds"

/-- Connection.prototype._inboundHeartbeatTimerReset: any pending timer is
cancelled and, when options.heartbeat is truthy, a new timer is armed for
gracePeriod * 1000 milliseconds. Returns the delay of the armed timer,
none when heartbeats are disabled. The data listener installed by
addAllListeners invokes this on every inbound data event. -/
def inboundHeartbeatTimerReset (heartbeat : Nat) : Option Nat :=
  if heartbeat ≠ 0 then some (heartbeatGracePeriod heartbeat * 1000) else none

/-- metaSize in Connection.prototype._sendBody: 7 frame header bytes plus
one frame end byte. -/
def metaSize : Nat := 8

/-- One body frame payload size per loop iteration of _sendBody:
`var bodySize = len < maxBodySize ? len : maxBodySize;`. -/
def bodySizeOf (maxBodySize len : Nat) : Nat :=
  if len < maxBodySize then len else maxBodySize

/-- The while loop of _sendBody, which runs while len > 0 and emits one
body frame of bodySize payload bytes per iteration. The first argument is
maxBodySize; the fuel argument bounds the number of iterations (when
maxBodySize ≥ 1 every iteration strictly decreases len, so fuel = initial
len is always enough). -/
def sendBodyLoop (maxBodySize : Nat) : Nat → Nat → List Nat
  | 0, _ => []
  | fuel + 1, len =>
    if len = 0 then []
    else
      bodySizeOf maxBodySize len ::
        sendBodyLoop maxBodySize fuel (len - bodySizeOf maxBodySize len)

/-- The ordered body frame payload sizes emitted by
Connection.prototype._sendBody for a body of len bytes:
`var maxBodySize = maxFrameBuffer - metaSize;`. -/
def bodyFrameSizes (maxFrameBuffer len : Nat) : List Nat :=
  sendBodyLoop (maxFrameBuffer - metaSize) len len

/-- Connection.prototype._sendBody first sends a content header whose
bodySize field is buffer.length, then the body frames in order. -/
def sendBodyFrames (maxFrameBuffer len : Nat) : Nat × List Nat :=
  (len, bodyFrameSizes maxFrameBuffer len)

/-- Result of Connection.prototype.generateChannelId: a fresh channel id,
the "No valid Channel Id values available" error, or divergence of the
JavaScript while(true) loop (modelled by fuel exhaustion; channelMax + 1
iterations always decide the loop when 1 ≤ channelCounter ≤ channelMax). -/
inductive AllocResult where
  | ok (id : Nat)
  | noChannels
  | fuelOut
deriving DecidableEq

/-- The while(true) loop of generateChannelId: each iteration computes
`channelId = channelId % channelMax + 1`; a candidate absent from channels
is returned, an occupied candidate equal to channelCounter raises the
error, otherwise the scan continues. -/
def generateChannelIdLoop (channels : List Nat) (channelMax channelCounter : Nat) :
    Nat → Nat → AllocResult
  | 0, _ => .fuelOut
  | fuel + 1, channelId =>
    if channelId % channelMax + 1 ∈ channels then
      if channelId % channelMax + 1 = channelCounter then .noChannels
      else
        generateChannelIdLoop channels channelMax channelCounter fuel
          (channelId % channelMax + 1)
    else .ok (channelId % channelMax + 1)

/-- Connection.prototype.generateChannelId: the scan starts from
channelCounter; on success the source assigns the returned id to
channelCounter, which callers of this model perform explicitly. -/
def generateChannelId (channels : List Nat) (channelMax channelCounter : Nat) :
    AllocResult :=
  generateChannelIdLoop channels channelMax channelCounter (channelMax + 1)
    channelCounter

/-- Perform k successive channel allocations the way connection.exchange
and connection.queue do: each successful allocation stores a handler at
the returned id (`this.channels[channel] = ...`) and generateChannelId has
set channelCounter to the returned id. Returns the ids in order, none when
some allocation does not return an id. -/
def allocRun (channelMax : Nat) : Nat → List Nat → Nat → Option (List Nat)
  | 0, _, _ => some []
  | k + 1, channels, channelCounter =>
    match generateChannelId channels channelMax channelCounter with
    | .ok id => (allocRun channelMax k (id :: channels) id).map (fun ids => id :: ids)
    | _ => none

/-- One backoff computation by the error listener installed in
addAllListeners. The closure variable backoffTime is none when no failure
has occurred since the last successful connection. -/
def nextBackoff (strategy : String)
    (reconnectBackoffTime reconnectExponentialLimit : Nat) :
    Option Nat → Nat
  | none => reconnectBackoffTime
  | some backoffTime =>
    if strategy = "exponential" then
      if backoffTime * 2 > reconnectExponentialLimit then
        reconnectExponentialLimit
      else backoffTime * 2
    else backoffTime

/-- Events seen by the reconnection supervisor: a fatal error that
schedules a reconnect, or a successful ready. -/
inductive SupervisorEvent where
  | fatalError
  | readyEvent

/-- The delays at which reconnects are scheduled over a sequence of fatal
errors and ready events: each error computes nextBackoff and remembers the
delay in backoffTime; the ready listener resets backoffTime to null. -/
def scheduledDelays (strategy : String) (base limit : Nat) :
    Option Nat → List SupervisorEvent → List Nat
  | _, [] => []
  | b, .fatalError :: rest =>
    nextBackoff strategy base limit b ::
      scheduledDelays strategy base limit (some (nextBackoff strategy base limit b)) rest
  | _, .readyEvent :: rest => scheduledDelays strategy base limit none rest

/-- The transport lifecycle events observed by the listeners installed in
addAllListeners that touch the readyEmitted flag. -/
inductive LifecycleEvent where
  | connectEvent
  | readyEvent
  | endEvent

/-- How the listeners installed by addAllListeners update readyEmitted:
the connect (or secureConnect) listener clears it, the ready listener sets
it, the end listener leaves it unchanged. -/
def readyEmittedStep (readyEmitted : Bool) : LifecycleEvent → Bool
  | .connectEvent => false
  | .readyEvent => true
  | .endEvent => readyEmitted

/-- The end listener installed by addAllListeners: when readyEmitted is
false it emits the authentication-failure heuristic error on the
connection's error channel, otherwise nothing. -/
def endListenerError (readyEmitted : Bool) : Option String :=
  if !readyEmitted then
    some "Connection ended: possibly due to an authentication failure."
  else none

/-- The module-level mutable variables of lib/connection.js, shared by
every Connection instance in the process:
`var maxFrameBuffer = 131072; var channelMax = 65535;`. -/
structure ModuleGlobals where
  maxFrameBuffer : Nat
  channelMax : Nat
deriving DecidableEq

/-- The initial values of the module-level variables. -/
def initialGlobals : ModuleGlobals :=
  { maxFrameBuffer := 131072, channelMax := 65535 }

/-- The per-connection state touched by the connectionTune handler: the
connection's own send buffer and its parser's frame limit. -/
structure ConnState where
  sendBufferSize : Nat
  parserMaxFrameBuffer : Nat
deriving DecidableEq

/-- A process hosting two independent connections A and B that share the
module-level variables. -/
structure ProcState where
  globals : ModuleGlobals
  connA : ConnState
  connB : ConnState
deriving DecidableEq

/-- The connectionTune case of _onMethod executed by connection A: a
truthy args.frameMax overwrites the module-level maxFrameBuffer and
reallocates A's send buffer and parser limit; a truthy args.channelMax
overwrites the module-level channelMax. Connection B is not touched. -/
def connectionTuneOnA (p : ProcState) (frameMax chMax : Nat) : ProcState :=
  let p1 :=
    if frameMax ≠ 0 then
      { p with
        globals := { p.globals with maxFrameBuffer := frameMax },
        connA := { sendBufferSize := frameMax, parserMaxFrameBuffer := frameMax } }
    else p
  if chMax ≠ 0 then
    { p1 with globals := { p1.globals with channelMax := chMax } }
  else p1

/-- Connection B's _sendBody reads the shared module-level
maxFrameBuffer. -/
def sendBodySizesOnB (p : ProcState) (len : Nat) : List Nat :=
  bodyFrameSizes p.globals.maxFrameBuffer len

/-- Connection B's generateChannelId reads the shared module-level
channelMax. -/
def generateChannelIdOnB (p : ProcState) (channels : List Nat)
    (channelCounter : Nat) : AllocResult :=
  generateChannelId channels p.globals.channelMax channelCounter

/-- The process state before any Connection.Tune is processed: both
connections hold the default 131072-byte send buffer and parser limit. -/
def initialProc : ProcState :=
  { globals := initialGlobals,
    connA := { sendBufferSize := 131072, parserMaxFrameBuffer := 131072 },
    connB := { sendBufferSize := 131072, parserMaxFrameBuffer := 131072 } }

/-
Helper lemmas.
-/

theorem bodySizeOf_le_max (maxBodySize len : Nat) :
    bodySizeOf maxBodySize len ≤ maxBodySize := by
  unfold bodySizeOf; split <;> omega

theorem bodySizeOf_le_len (maxBodySize len : Nat) :
    bodySizeOf maxBodySize len ≤ len := by
  unfold bodySizeOf; split <;> omega

theorem bodySizeOf_pos (maxBodySize len : Nat) (hm : 0 < maxBodySize)
    (hl : 0 < len) : 0 < bodySizeOf maxBodySize len := by
  unfold bodySizeOf; split <;> omega

theorem sendBodyLoop_mem_le (maxBodySize : Nat) :
    ∀ (fuel len : Nat), ∀ c ∈ sendBodyLoop maxBodySize fuel len, c ≤ maxBodySize := by
  intro fuel
  induction fuel with
  | zero => intro len c hc; simp [sendBodyLoop] at hc
  | succ fuel ih =>
    intro len c hc
    rw [sendBodyLoop] at hc
    split at hc
    · simp at hc
    · rcases List.mem_cons.mp hc with h | h
      · exact h ▸ bodySizeOf_le_max _ _
      · exact ih _ _ h

theorem sendBodyLoop_sum (maxBodySize : Nat) (hm : 0 < maxBodySize) :
    ∀ (fuel len : Nat), len ≤ fuel → (sendBodyLoop maxBodySize fuel len).sum = len := by
  intro fuel
  induction fuel with
  | zero =>
    intro len h
    have hz : len = 0 := by omega
    subst hz; rfl
  | succ fuel ih =>
    intro len h
    rw [sendBodyLoop]
    split
    · next h0 => subst h0; rfl
    · next h0 =>
      have hb1 := bodySizeOf_le_len maxBodySize len
      have hb2 := bodySizeOf_pos maxBodySize len hm (by omega)
      have hrec := ih (len - bodySizeOf maxBodySize len) (by omega)
      rw [List.sum_cons, hrec]
      omega

theorem generateChannelIdLoop_ok (channels : List Nat)
    (channelMax channelCounter : Nat) :
    ∀ (fuel start id : Nat),
      generateChannelIdLoop channels channelMax channelCounter fuel start = .ok id →
      id ∉ channels ∧ 1 ≤ id ∧ (0 < channelMax → id ≤ channelMax) := by
  intro fuel
  induction fuel with
  | zero => intro start id h; simp [generateChannelIdLoop] at h
  | succ fuel ih =>
    intro start id h
    rw [generateChannelIdLoop] at h
    split at h
    · split at h
      · exact absurd h (by simp)
      · exact ih _ _ h
    · next hmem =>
      injection h with hid
      subst hid
      refine ⟨hmem, by omega, fun hmax => ?_⟩
      have := Nat.mod_lt start hmax
      omega

theorem generateChannelId_fresh (channelMax k : Nat) (channels : List Nat)
    (hk : k < channelMax) (hch : ∀ x ∈ channels, x ≤ k) :
    generateChannelId channels channelMax k = .ok (k + 1) := by
  have hmod : k % channelMax = k := Nat.mod_eq_of_lt hk
  have hnot : ¬(k % channelMax + 1 ∈ channels) := by
    rw [hmod]; intro hmem; exact absurd (hch _ hmem) (by omega)
  unfold generateChannelId
  rw [generateChannelIdLoop, if_neg hnot, hmod]

theorem allocRun_fresh (channelMax : Nat) :
    ∀ (n j : Nat) (channels : List Nat),
      j + n ≤ channelMax → (∀ x ∈ channels, x ≤ j) →
      allocRun channelMax n channels j = some (List.range' (j + 1) n) := by
  intro n
  induction n with
  | zero => intro j channels _ _; rfl
  | succ n ih =>
    intro j channels hle hch
    have hch2 : ∀ x ∈ (j + 1) :: channels, x ≤ j + 1 := by
      intro x hx
      rcases List.mem_cons.mp hx with h | h
      · omega
      · exact Nat.le_succ_of_le (hch _ h)
    rw [allocRun, generateChannelId_fresh channelMax j channels (by omega) hch]
    show Option.map (fun ids => (j + 1) :: ids)
        (allocRun channelMax n ((j + 1) :: channels) (j + 1)) =
      some (List.range' (j + 1) (n + 1))
    rw [ih (j + 1) ((j + 1) :: channels) (by omega) hch2]
    rw [List.range'_succ]
    rfl

/-
Claim theorems.
-/

/-- C1 (counterexample): the claim states that when the inbound heartbeat
timer fires with the transport still readable and heartbeatForceReconnect
false, nothing happens. The code's condition is
`socket.readable || heartbeatForceReconnect`, so at readable = true,
force = false the error IS emitted, while the claim's condition
(not readable, or force) predicts no emission. -/
theorem inboundHeartbeat_claim_counterexample :
    inboundHeartbeatFires true false = true ∧ ((!true || false) = false) := by
  decide

/-- C1 (amended): the inbound heartbeat timer fires 2 × options.heartbeat
seconds after the last inbound byte (heartbeat ≠ 0); when it fires, the
HeartbeatTimeout error naming the grace period is raised iff the transport
is still readable or heartbeatForceReconnect is true; nothing happens when
the transport is not readable and heartbeatForceReconnect is false. The
timer is re-armed by every inbound data event. -/
theorem inboundHeartbeat_spec (heartbeat : Nat) (hhb : heartbeat ≠ 0) :
    (∀ readable force,
       inboundHeartbeatFires readable force = true ↔
         (readable = true ∨ force = true)) ∧
    inboundHeartbeatTimerReset heartbeat = some (2 * heartbeat * 1000) ∧
    heartbeatErrorMessage (heartbeatGracePeriod heartbeat) =
      "no heartbeat or data in last " ++ toString (2 * heartbeat) ++ " seconds" := by
  refine ⟨by decide, ?_, rfl⟩
  unfold inboundHeartbeatTimerReset
  rw [if_pos hhb]
  rfl

/-- C1 (witness): the amended statement applied at heartbeat = 60. -/
theorem inboundHeartbeat_spec_witness :
    (60 : Nat) ≠ 0 ∧
    ((∀ readable force,
        inboundHeartbeatFires readable force = true ↔
          (readable = true ∨ force = true)) ∧
     inboundHeartbeatTimerReset 60 = some (2 * 60 * 1000) ∧
     heartbeatErrorMessage (heartbeatGracePeriod 60) =
       "no heartbeat or data in last " ++ toString (2 * 60) ++ " seconds") :=
  ⟨by decide, inboundHeartbeat_spec 60 (by decide)⟩

/-- C2: the version check of the connectionStart handler is
`versionMajor !== 0 && versionMinor != 9`, so Connection.Start with
versionMajor = 0, versionMinor = 8 (or 1, 9) is accepted and answered
with connectionStartOk, although the claim requires every version other
than 0-9 to be rejected with BadServerVersion; (1, 0) is rejected as the
claim states, and (0, 9) proceeds to StartOk with locale "en_US". -/
theorem connectionStart_version_check_bug :
    onConnectionStart 0 8 "AMQPLAIN" "guest" "guest" (.str "") =
      .startOk "AMQPLAIN" (.table [("LOGIN", "guest"), ("PASSWORD", "guest")])
        "en_US" ∧
    onConnectionStart 1 9 "AMQPLAIN" "guest" "guest" (.str "") ≠ .badVersion ∧
    onConnectionStart 1 0 "AMQPLAIN" "guest" "guest" (.str "") = .badVersion ∧
    onConnectionStart 0 9 "AMQPLAIN" "guest" "guest" (.str "") =
      .startOk "AMQPLAIN" (.table [("LOGIN", "guest"), ("PASSWORD", "guest")])
        "en_US" := by
  decide

/-- C3 (counterexample): the claim states every body frame satisfies
8 + payloadLength + 1 ≤ negotiatedFrameMax, but with frameMax = 131072 the
code emits frames of payload 131064 bytes and 8 + 131064 + 1 = 131073 >
131072; the frame overhead is 7 header bytes plus 1 end byte, not 8 + 1. -/
theorem sendBody_overhead_counterexample :
    131064 ∈ bodyFrameSizes 131072 300000 ∧ ¬(8 + 131064 + 1 ≤ 131072) := by
  decide

/-- C3 (amended): _sendBody splits the payload into body frames emitted in
order whose sizes sum to the body length, each satisfying
7 + payloadLength + 1 ≤ negotiatedFrameMax (payloadLength ≤ frameMax - 8);
with frameMax = 131072 a 300000-byte buffer yields a header with bodySize
300000 followed by ceil(300000 / 131064) = 3 body frames of sizes 131064,
131064, 37872. -/
theorem sendBody_chunking_spec (maxFrameBuffer len : Nat)
    (hmax : 8 < maxFrameBuffer) :
    (∀ c ∈ bodyFrameSizes maxFrameBuffer len, 7 + c + 1 ≤ maxFrameBuffer) ∧
    (bodyFrameSizes maxFrameBuffer len).sum = len ∧
    sendBodyFrames 131072 300000 = (300000, [131064, 131064, 37872]) ∧
    (bodyFrameSizes 131072 300000).length = (300000 + 131064 - 1) / 131064 := by
  refine ⟨?_, ?_, by decide, by decide⟩
  · intro c hc
    have h1 := sendBodyLoop_mem_le (maxFrameBuffer - metaSize) len len c hc
    unfold metaSize at h1
    omega
  · exact sendBodyLoop_sum (maxFrameBuffer - metaSize)
      (by unfold metaSize; omega) len len le_rfl

/-- C3 (witness): the amended statement applied at frameMax = 131072,
len = 300000. -/
theorem sendBody_chunking_spec_witness :
    8 < 131072 ∧
    ((∀ c ∈ bodyFrameSizes 131072 300000, 7 + c + 1 ≤ 131072) ∧
     (bodyFrameSizes 131072 300000).sum = 300000 ∧
     sendBodyFrames 131072 300000 = (300000, [131064, 131064, 37872]) ∧
     (bodyFrameSizes 131072 300000).length = (300000 + 131064 - 1) / 131064) :=
  ⟨by decide, sendBody_chunking_spec 131072 300000 (by decide)⟩

/-- C4: starting from a fresh connection (empty channel table,
channelCounter = 0), any k ≤ channelMax successive allocations return the
distinct ids 1, 2, ..., k, all in 1..channelMax; in general a successful
generateChannelId returns an id not present in channels and in
1..channelMax; with channelMax = 3 and channels 1, 2, 3 occupied the next
allocation fails with NoChannelsAvailable, and after releasing channel 2
the next allocation returns 2. -/
theorem generateChannelId_spec (channelMax k : Nat) (hk : k ≤ channelMax) :
    allocRun channelMax k [] 0 = some (List.range' 1 k) ∧
    (List.range' 1 k).Nodup ∧
    (∀ id ∈ List.range' 1 k, 1 ≤ id ∧ id ≤ channelMax) ∧
    (∀ (channels : List Nat) (counter id : Nat),
       generateChannelId channels channelMax counter = .ok id →
       id ∉ channels ∧ 1 ≤ id ∧ (0 < channelMax → id ≤ channelMax)) ∧
    generateChannelId [1, 2, 3] 3 3 = .noChannels ∧
    generateChannelId [1, 3] 3 3 = .ok 2 := by
  refine ⟨?_, ?_, ?_, ?_, by decide, by decide⟩
  · exact allocRun_fresh channelMax k 0 [] (by omega) (by simp)
  · exact List.nodup_range' 1 k
  · intro id hid
    have := List.mem_range'_1.mp hid
    omega
  · intro channels counter id h
    exact generateChannelIdLoop_ok channels channelMax counter _ _ _ h

/-- C4 (witness): the statement applied at channelMax = 3, k = 3. -/
theorem generateChannelId_spec_witness :
    3 ≤ 3 ∧
    (allocRun 3 3 [] 0 = some (List.range' 1 3) ∧
     (List.range' 1 3).Nodup ∧
     (∀ id ∈ List.range' 1 3, 1 ≤ id ∧ id ≤ 3) ∧
     (∀ (channels : List Nat) (counter id : Nat),
        generateChannelId channels 3 counter = .ok id →
        id ∉ channels ∧ 1 ≤ id ∧ (0 < 3 → id ≤ 3)) ∧
     generateChannelId [1, 2, 3] 3 3 = .noChannels ∧
     generateChannelId [1, 3] 3 3 = .ok 2) :=
  ⟨by decide, generateChannelId_spec 3 3 (by decide)⟩

/-- C5: the first fatal error since the last successful connection
schedules a reconnect after reconnectBackoffTime ms; under strategy
exponential each subsequent failure doubles the delay capped at
reconnectExponentialLimit, under strategy linear it is unchanged; a ready
resets the series; with base 1000, strategy exponential and limit 10000
six successive failures schedule 1000, 2000, 4000, 8000, 10000, 10000 ms,
and a ready after two failures restarts at 1000. -/
theorem reconnectBackoff_spec :
    (∀ strategy base limit, nextBackoff strategy base limit none = base) ∧
    (∀ base limit b, nextBackoff "linear" base limit (some b) = b) ∧
    (∀ base limit b,
       nextBackoff "exponential" base limit (some b) = min (b * 2) limit) ∧
    scheduledDelays "exponential" 1000 10000 none
      [.fatalError, .fatalError, .fatalError, .fatalError, .fatalError,
       .fatalError] = [1000, 2000, 4000, 8000, 10000, 10000] ∧
    scheduledDelays "exponential" 1000 10000 none
      [.fatalError, .fatalError, .readyEvent, .fatalError] =
      [1000, 2000, 1000] := by
  refine ⟨fun _ _ _ => rfl, ?_, ?_, by decide, by decide⟩
  · intro base limit b
    simp [nextBackoff]
  · intro base limit b
    show (if b * 2 > limit then limit else b * 2) = min (b * 2) limit
    split <;> omega

/-- C6: the SASL response is the field table LOGIN/PASSWORD for AMQPLAIN,
the string NUL login NUL password for PLAIN, the string NUL for EXTERNAL
and for ANONYMOUS, and the caller-supplied options.response verbatim for
any other mechanism. -/
theorem saslResponse_spec (login password : String)
    (optionsResponse : SaslValue) (mechanism : String)
    (h1 : mechanism ≠ "AMQPLAIN") (h2 : mechanism ≠ "PLAIN")
    (h3 : mechanism ≠ "EXTERNAL") (h4 : mechanism ≠ "ANONYMOUS") :
    saslResponse "AMQPLAIN" login password optionsResponse =
      .table [("LOGIN", login), ("PASSWORD", password)] ∧
    saslResponse "PLAIN" login password optionsResponse =
      .str ("\x00" ++ login ++ "\x00" ++ password) ∧
    saslResponse "EXTERNAL" login password optionsResponse = .str "\x00" ∧
    saslResponse "ANONYMOUS" login password optionsResponse = .str "\x00" ∧
    saslResponse mechanism login password optionsResponse = optionsResponse := by
  refine ⟨rfl, rfl, rfl, rfl, ?_⟩
  simp [saslResponse, h1, h2, h3, h4]

/-- C6 (witness): the statement applied at mechanism = "CRAM-MD5",
login = "guest", password = "secret", options.response = .str "preset". -/
theorem saslResponse_spec_witness :
    (("CRAM-MD5" : String) ≠ "AMQPLAIN" ∧ ("CRAM-MD5" : String) ≠ "PLAIN" ∧
     ("CRAM-MD5" : String) ≠ "EXTERNAL" ∧
     ("CRAM-MD5" : String) ≠ "ANONYMOUS") ∧
    (saslResponse "AMQPLAIN" "guest" "secret" (.str "preset") =
       .table [("LOGIN", "guest"), ("PASSWORD", "secret")] ∧
     saslResponse "PLAIN" "guest" "secret" (.str "preset") =
       .str ("\x00" ++ "guest" ++ "\x00" ++ "secret") ∧
     saslResponse "EXTERNAL" "guest" "secret" (.str "preset") = .str "\x00" ∧
     saslResponse "ANONYMOUS" "guest" "secret" (.str "preset") = .str "\x00" ∧
     saslResponse "CRAM-MD5" "guest" "secret" (.str "preset") =
       .str "preset") :=
  ⟨by decide,
   saslResponse_spec "guest" "secret" (.str "preset") "CRAM-MD5"
     (by decide) (by decide) (by decide) (by decide)⟩

/-- C7: a byte buffer body is sent verbatim with no properties injected, a
string body is UTF-8 encoded with no properties injected, and any other
body is JSON-encoded to UTF-8 with contentType defaulted to
application/json. -/
theorem bodyToBuffer_spec {α : Type} (stringify : α → String) (s : String)
    (bytes : List UInt8) (v : α) :
    bodyToBuffer stringify (.str s) = (none, s.toUTF8.toList) ∧
    bodyToBuffer stringify (.buf bytes) = (none, bytes) ∧
    bodyToBuffer stringify (.other v) =
      (some [("contentType", "application/json")],
       (stringify v).toUTF8.toList) :=
  ⟨rfl, rfl, rfl⟩

/-- C8: a transport end while readyEmitted is false synthesizes the
authentication-failure error, an end with readyEmitted true synthesizes
none; the connect listener sets readyEmitted to false and the ready
listener sets it to true. -/
theorem prematureEnd_authFailure_spec :
    endListenerError false =
      some "Connection ended: possibly due to an authentication failure." ∧
    endListenerError true = none ∧
    (∀ readyEmitted, readyEmittedStep readyEmitted .connectEvent = false) ∧
    (∀ readyEmitted, readyEmittedStep readyEmitted .readyEvent = true) ∧
    (∀ readyEmitted, readyEmittedStep readyEmitted .endEvent = readyEmitted) :=
  ⟨rfl, rfl, fun _ => rfl, fun _ => rfl, fun _ => rfl⟩

/-- C9: maxFrameBuffer and channelMax are module-level state shared by all
connections: after connection A processes Connection.Tune with frameMax
4096 and channelMax 3, connection B's own state is unchanged yet B's
_sendBody chunks a 300000-byte body differently than before the Tune, and
B's generateChannelId, which could allocate id 4 before the Tune, now
fails with NoChannelsAvailable. -/
theorem moduleGlobals_shared_spec :
    connectionTuneOnA initialProc 4096 3 ≠ initialProc ∧
    (connectionTuneOnA initialProc 4096 3).connB = initialProc.connB ∧
    sendBodySizesOnB (connectionTuneOnA initialProc 4096 3) 300000 ≠
      sendBodySizesOnB initialProc 300000 ∧
    generateChannelIdOnB (connectionTuneOnA initialProc 4096 3) [1, 2, 3] 3 =
      .noChannels ∧
    generateChannelIdOnB initialProc [1, 2, 3] 3 = .ok 4 := by
  refine ⟨by decide, rfl, by decide, by decide, by decide⟩

/-- C10: `this.options.noDelay || true` is truthy for every JavaScript
value of options.noDelay, including false, so _createSocket always enables
TCP no-delay and Nagle's algorithm can never be enabled through the
noDelay option. -/
theorem noDelay_always_true_spec :
    (∀ v, truthy (createSocketNoDelay v) = true) ∧
    createSocketNoDelay (.bool false) = .bool true := by
  constructor
  · intro v
    unfold createSocketNoDelay
    split
    · next h => exact h
    · rfl
  · rfl

end NodeAmqp
